import Mathlib

/-! Verification of the state-reconciliation core of SpotifyModal
(`src/utils.ts`): the `EventEmitter` pub/sub primitive, the
account/socket resolver `getSpotifySocket`, and the `SpotifyWatcher`
state machine (update handler, websocket message classifier, heartbeat
installation, and the `load`/`unload` lifecycle).

The embedding is shallow: each TypeScript function is translated into an
executable Lean definition over an explicit state record.  JavaScript
dynamic values that the code inspects are modelled by the inductive
`Js`; member access on `undefined`/`null` (a thrown `TypeError`) and a
failing `JSON.parse` (a thrown parse error) are modelled with `Except`.
-/

namespace SpotifyModal

/-- A JavaScript value, as far as the reconciliation core inspects one.
Numbers are modelled as integers (none of the inspected fields rely on
floating-point behaviour). -/
inductive Js where
  | undef : Js
  | null : Js
  | bool : Bool → Js
  | num : Int → Js
  | str : String → Js
  | arr : List Js → Js
  | obj : List (String × Js) → Js

/-- A thrown JavaScript error: member access on `undefined`/`null`, or a
failed `JSON.parse`. -/
inductive JsErr where
  | typeErr : JsErr
  | parseErr : JsErr
deriving DecidableEq

/-- JavaScript truthiness of a value. -/
def truthy : Js → Bool
  | Js.undef => false
  | Js.null => false
  | Js.bool b => b
  | Js.num n => decide (n ≠ 0)
  | Js.str s => decide (s ≠ "")
  | Js.arr _ => true
  | Js.obj _ => true

/-- Optional-chained member access `v?.k`: yields `undefined` instead of
throwing when the receiver is `undefined`/`null`. -/
def jsOptField (v : Js) (k : String) : Js :=
  match v with
  | Js.obj l => (l.lookup k).getD Js.undef
  | _ => Js.undef

/-- Plain member access `v.k`: throws a `TypeError` when the receiver is
`undefined`/`null`; on non-objects it yields `undefined`. -/
def jsField (v : Js) (k : String) : Except JsErr Js :=
  match v with
  | Js.undef => Except.error JsErr.typeErr
  | Js.null => Except.error JsErr.typeErr
  | Js.obj l => Except.ok ((l.lookup k).getD Js.undef)
  | _ => Except.ok Js.undef

/-- Index access `v[i]`: throws on `undefined`/`null`, yields the element
or `undefined` on arrays, `undefined` on other values. -/
def jsIndex (v : Js) (i : Nat) : Except JsErr Js :=
  match v with
  | Js.undef => Except.error JsErr.typeErr
  | Js.null => Except.error JsErr.typeErr
  | Js.arr l => Except.ok ((l.get? i).getD Js.undef)
  | _ => Except.ok Js.undef

/-- The nullish-coalescing operator `v ?? d`. -/
def jsNullish (v d : Js) : Js :=
  match v with
  | Js.undef => d
  | Js.null => d
  | _ => v

/-- Strict equality `v === "s"` against a string literal. -/
def Js.isStr (v : Js) (s : String) : Bool :=
  match v with
  | Js.str t => decide (t = s)
  | _ => false

/-- Events emitted through the watcher's own `EventEmitter` interface
(`this.emit(...)` calls inside `SpotifyWatcher`).  Realtime sockets are
identified by a natural number. -/
inductive Ev where
  | update (incoming : String) (bound : String)
  | message (ty : Js) (v : Js)
  | websocket (ws : Nat)
  | error (tag : String)
  | pong (accountId : String)
  | registered
  | unregistered

/-- Which handler function a host-dispatcher subscription holds
(`this.handlers.SPOTIFY_UPDATE`, `this.handlers.REGISTER_PONG_EVENT`). -/
inductive HTag where
  | spotifyUpdate : HTag
  | registerPong : HTag
deriving DecidableEq

/-- The mutable fields of a `SpotifyWatcher` instance (src/utils.ts:171-241),
together with the externally visible listener/subscription bookkeeping:
`msgListeners` is the set of sockets carrying the
`SPOTIFY_WEBSOCKET_MESSAGE` listener, `pongListeners` the
(accountId, socket) pairs carrying a pong handler, `dispatchSubs` the
host dispatch-bus subscriptions, `emitterNames` the event names with
handlers registered on the watcher's own emitter. -/
structure Watcher where
  accountId : String
  stateJs : Js
  devicesJs : Js
  sockets : Option (List (String × Nat))
  socketsPongHandlers : List String
  pongListeners : List (String × Nat)
  socketAccountId : String
  socketWs : Option Nat
  msgListeners : List Nat
  registered : Bool
  pongListenerRegistered : Bool
  dispatcher : Bool
  dispatchSubs : List (String × HTag)
  emitterNames : List String

/-- The `SpotifyWatcher` constructor (src/utils.ts:194-241): every field
empty/undefined. -/
def initWatcher : Watcher :=
  { accountId := ""
    stateJs := Js.undef
    devicesJs := Js.undef
    sockets := none
    socketsPongHandlers := []
    pongListeners := []
    socketAccountId := ""
    socketWs := none
    msgListeners := []
    registered := false
    pongListenerRegistered := false
    dispatcher := false
    dispatchSubs := []
    emitterNames := [] }

/-- Getter `state` (src/utils.ts:247-249): `this.#state ?? {}`. -/
def stateGetter (w : Watcher) : Js :=
  jsNullish w.stateJs (Js.obj [])

/-- Getter `devices` (src/utils.ts:251-253): `this.#devices ?? []`. -/
def devicesGetter (w : Watcher) : Js :=
  jsNullish w.devicesJs (Js.arr [])

/-! EventEmitter (src/utils.ts:107-169).

`_events` maps an event name to either a single handler function or a
JavaScript `Set` of handlers.  Handlers are identified abstractly by a
type `H` with decidable equality (JavaScript function identity); a `Set`
is a duplicate-free list in insertion order. -/

/-- The value stored in `_events[name]`: a bare function or a `Set`. -/
inductive Listeners (H : Type) where
  | single (f : H)
  | set (l : List H)

/-- The `_events` record: an association list keyed by event name. -/
def EventMap (H : Type) : Type := List (String × Listeners H)

/-- Assignment `_events[name] = v` on a JavaScript record: overwrites in
place, or appends a new key. -/
def updEvents {H : Type} : EventMap H → String → Listeners H → EventMap H
  | [], name, v => [(name, v)]
  | (k, w) :: rest, name, v =>
      if k = name then (k, v) :: rest else (k, w) :: updEvents rest name v

/-- JavaScript `Set.prototype.add`: no-op when the element is present, else append
(JavaScript sets preserve insertion order). -/
def setAdd {H : Type} [DecidableEq H] (l : List H) (f : H) : List H :=
  if f ∈ l then l else l ++ [f]

/-- Embeds `EventEmitter.on` (src/utils.ts:123-131).  When the bucket currently
holds a single function it is promoted to a `Set` of the old and new
handler; in every other case (empty bucket, but also a bucket already
holding a `Set`) the bucket is overwritten with the bare callback. -/
def onEvt {H : Type} [DecidableEq H] (m : EventMap H) (name : String) (cb : H) :
    EventMap H :=
  match m.lookup name with
  | some (Listeners.single f) =>
      updEvents m name (Listeners.set (setAdd (setAdd [] f) cb))
  | _ => updEvents m name (Listeners.single cb)

/-- Run a list of handlers on the argument `a` in order, as
`Set.prototype.forEach` does with a callback that may throw: `run f a`
is `some e` when handler `f` throws `e`.  Returns the invocation trace
(each invoked handler paired with the argument it received) and the
exception that escaped, if any; a throw aborts the iteration. -/
def runList {H A E : Type} (run : H → A → Option E) :
    List H → A → List (H × A) × Option E
  | [], _ => ([], none)
  | f :: rest, a =>
      match run f a with
      | some e => ([(f, a)], some e)
      | none =>
          let r := runList run rest a
          ((f, a) :: r.1, r.2)

/-- Embeds `EventEmitter.emit` (src/utils.ts:157-168), instrumented with the
invocation trace.  A single stored function is invoked directly; a `Set`
is iterated with `forEach`.  There is no `try`/`catch`, so a throwing
handler propagates out of `emit`. -/
def emitRun {H A E : Type} (run : H → A → Option E) (m : EventMap H)
    (name : String) (a : A) : List (H × A) × Option E :=
  match m.lookup name with
  | none => ([], none)
  | some (Listeners.single f) =>
      match run f a with
      | some e => ([(f, a)], some e)
      | none => ([(f, a)], none)
  | some (Listeners.set l) => runList run l a

/-! Account/Socket resolver (src/utils.ts:29-51). -/

/-- The `socket` component of the host store's
`getActiveSocketAndDevice()` result. -/
structure ActiveSocket where
  accountId : String
  socket : Nat
deriving DecidableEq

/-- The host store consulted by the resolver: the active socket/device
lookup and the `__getLocalVars().accounts` registry (insertion order,
each account holding its realtime socket). -/
structure SpotifyStore where
  active : Option ActiveSocket
  accounts : List (String × Nat)
deriving DecidableEq

/-- JavaScript property-key coercion: `accountId in accounts` with
`accountId === undefined` tests the string key `"undefined"`. -/
def jsKey (acct : Option String) : String :=
  acct.getD "undefined"

/-- Methods II and III of `getSpotifySocket` (src/utils.ts:40-50):
direct registry lookup by the (coerced) account key, then the
unfiltered active-socket lookup, then the first registry entry. -/
def methodsIIandIII (store : SpotifyStore) (acct : Option String) :
    Option Nat :=
  match store.accounts.lookup (jsKey acct) with
  | some s => some s
  | none =>
      match store.active with
      | some a => some a.socket
      | none => store.accounts.head?.map Prod.snd

/-- Embeds `getSpotifySocket` (src/utils.ts:29-51).  `store?` is the awaited
host module (`none` when not yet resolvable).  Method I returns the
active socket only when its `accountId` strictly equals the requested
one; Method II looks the key up in the registry; Method III retries the
active lookup unfiltered and finally falls back to the first registry
entry. -/
def getSpotifySocket (store? : Option SpotifyStore) (acct : Option String) :
    Option Nat :=
  match store? with
  | none => none
  | some store =>
      match store.active with
      | some a =>
          if some a.accountId = acct then some a.socket
          else methodsIIandIII store acct
      | none => methodsIIandIII store acct

/-- Written from the words of claim C6 (and spec §4.2), not from the
source, for comparison with `getSpotifySocket`: tier 1 is the active
lookup filtered to the requested accountId, tier 2 the direct registry
lookup, and tier 3 applies the unfiltered active lookup __only when the
accountId is absent__, else the first registry entry. -/
def resolveSocketClaimed (store? : Option SpotifyStore) (acct : Option String) :
    Option Nat :=
  match store? with
  | none => none
  | some store =>
      let t1 : Option Nat :=
        match store.active with
        | some a => if some a.accountId = acct then some a.socket else none
        | none => none
      let t2 : Option Nat := store.accounts.lookup (jsKey acct)
      let t3 : Option Nat :=
        match acct with
        | none => store.active.map ActiveSocket.socket
        | some _ => store.accounts.head?.map Prod.snd
      (t1.orElse fun _ => t2).orElse fun _ => t3

/-- The amended tier-3 rule: the unfiltered active-socket lookup is
attempted whether or not an accountId was requested, and the first
registry entry is only the last resort. -/
def resolveSocketAmended (store? : Option SpotifyStore) (acct : Option String) :
    Option Nat :=
  match store? with
  | none => none
  | some store =>
      let t1 : Option Nat :=
        match store.active with
        | some a => if some a.accountId = acct then some a.socket else none
        | none => none
      let t2 : Option Nat := store.accounts.lookup (jsKey acct)
      let t3 : Option Nat :=
        match store.active with
        | some a => some a.socket
        | none => store.accounts.head?.map Prod.snd
      (t1.orElse fun _ => t2).orElse fun _ => t3

/-! SpotifyWatcher operations (src/utils.ts:171-385). -/

/-- Append a socket to the message-listener set if absent
(`addEventListener` with an identical (type, listener) pair is a no-op). -/
def listAdd (l : List Nat) (ws : Nat) : List Nat :=
  if ws ∈ l then l else l ++ [ws]

/-- Embeds `SpotifyWatcher.#afterSpotifyUpdate` (src/utils.ts:275-287).
`this.socket` is a __getter__ returning a fresh copy of `#socket`
(src/utils.ts:268-273), so the assignments `this.socket.accountId = ...`
and `this.socket.ws = await getSpotifySocket(...)` mutate the copy and
leave `#socket` unchanged; the resolved socket (`resolved`, the value
`getSpotifySocket` returned) is discarded, and the subsequent
`this?.socket?.ws` check re-reads the unchanged `#socket.ws`.
`removeEventListener`/`addEventListener`, by contrast, act on the real
socket object the copied reference points to. -/
def afterSpotifyUpdate (w : Watcher) (resolved : Option Nat) :
    Watcher × List Ev :=
  match w.socketWs with
  | some ws =>
      if w.socketAccountId ≠ w.accountId then
        let w1 := { w with msgListeners := w.msgListeners.erase ws }
        let _ := resolved
        let w2 := { w1 with msgListeners := listAdd w1.msgListeners ws }
        (w2, [Ev.websocket ws])
      else (w, [])
  | none =>
      let _ := resolved
      (w, [Ev.error "websocket"])

/-- Embeds `SpotifyWatcher.handlers.SPOTIFY_UPDATE` (src/utils.ts:215-227).
`resolved` is the socket `getSpotifySocket(this.#accountId)` would
yield.  Returns the new state, the events emitted, and the
`log.error` messages produced. -/
def SPOTIFY_UPDATE (resolved : Option Nat) (w : Watcher)
    (dataAccountId : String) : Watcher × List Ev × List String :=
  let w1 := if w.accountId = "" then { w with accountId := dataAccountId } else w
  if w1.accountId ≠ dataAccountId then
    (w1, [], ["SpotifyWatcher@SPOTIFY_UPDATE: new account ID differs from registered account ID, change ignored"])
  else
    let r := afterSpotifyUpdate w1 resolved
    (r.1, Ev.update dataAccountId w1.accountId :: r.2, [])

/-- Embeds `SpotifyWatcher.handlers.SPOTIFY_WEBSOCKET_MESSAGE`
(src/utils.ts:228-237).  The raw wire text is given pre-parsed:
`none` stands for data `JSON.parse` would throw on, `some data` for the
decoded value.  The guard is
`data?.type && data?.payloads && data.type !== "pong"`; inside it, the
chained accesses `data.payloads[0].events[0]...` throw a `TypeError`
when an intermediate value is `undefined`.  The trailing `emit` happens
for __every__ message passing the guard, carrying the updated state for
`PLAYER_STATE_CHANGED` and the stored devices value otherwise. -/
def SPOTIFY_WEBSOCKET_MESSAGE (w : Watcher) (raw : Option Js) :
    Except JsErr (Watcher × List Ev) :=
  match raw with
  | none => Except.error JsErr.parseErr
  | some data =>
      let ty := jsOptField data "type"
      let pls := jsOptField data "payloads"
      if truthy ty && truthy pls && !(ty.isStr "pong") then do
        let p0 ← jsIndex pls 0
        let evl ← jsField p0 "events"
        let e0 ← jsIndex evl 0
        let ety ← jsField e0 "type"
        if ety.isStr "PLAYER_STATE_CHANGED" then do
          let evObj ← jsField e0 "event"
          let st ← jsField evObj "state"
          let w1 := { w with stateJs := st }
          pure (w1, [Ev.message ety w1.stateJs])
        else if ety.isStr "DEVICE_STATE_CHANGED" then do
          let evObj ← jsField e0 "event"
          let ds ← jsField evObj "devices"
          let w1 := { w with devicesJs := ds }
          pure (w1, [Ev.message ety w1.devicesJs])
        else
          pure (w, [Ev.message ety w.devicesJs])
      else Except.ok (w, [])

/-- Call `this.dispatcher.subscribe(name, handler)`: throws a `TypeError`
when `this.dispatcher` is still `undefined`. -/
def dispatcherSub (hasDispatcher : Bool) (subs : List (String × HTag))
    (name : String) (t : HTag) : Except JsErr (List (String × HTag)) :=
  if hasDispatcher then Except.ok (subs ++ [(name, t)])
  else Except.error JsErr.typeErr

/-- Call `this.dispatcher.unsubscribe(name, handler)`: throws a `TypeError`
when `this.dispatcher` is still `undefined`. -/
def dispatcherUnsub (hasDispatcher : Bool) (subs : List (String × HTag))
    (name : String) (t : HTag) : Except JsErr (List (String × HTag)) :=
  if hasDispatcher then
    Except.ok (subs.filter fun p => !(p.1 == name && p.2 == t))
  else Except.error JsErr.typeErr

/-- Embeds `SpotifyWatcher.removeFlux` (src/utils.ts:355-369): guarded by
`!this.dispatcher || !this.registered` (logging "Already removed"),
then unsubscribes the five update events and emits `unregistered`. -/
def removeFlux (w : Watcher) : Except JsErr (Watcher × List Ev) :=
  if !w.dispatcher || !w.registered then Except.ok (w, [])
  else do
    let s1 ← dispatcherUnsub w.dispatcher w.dispatchSubs
      "SPOTIFY_PROFILE_UPDATE" HTag.spotifyUpdate
    let s2 ← dispatcherUnsub w.dispatcher s1
      "SPOTIFY_SET_DEVICES" HTag.spotifyUpdate
    let s3 ← dispatcherUnsub w.dispatcher s2
      "SPOTIFY_ACCOUNT_ACCESS_TOKEN" HTag.spotifyUpdate
    let s4 ← dispatcherUnsub w.dispatcher s3
      "SPOTIFY_SET_ACTIVE_DEVICES" HTag.spotifyUpdate
    let s5 ← dispatcherUnsub w.dispatcher s4
      "SPOTIFY_PLAYER_STATE" HTag.spotifyUpdate
    Except.ok ({ w with dispatchSubs := s5, registered := false },
      [Ev.unregistered])

/-- The per-socket body of `SpotifyWatcher.removePongEvent`
(src/utils.ts:321-326): when the accountId has a pong handler, detach
it from the socket and delete it from `#socketsPongHandlers`. -/
def removePongStep (acc : Watcher) (p : String × Nat) : Watcher :=
  if p.1 ∈ acc.socketsPongHandlers then
    { acc with
      pongListeners := acc.pongListeners.erase p
      socketsPongHandlers := acc.socketsPongHandlers.erase p.1 }
  else acc

/-- Embeds `SpotifyWatcher.removePongEvent` (src/utils.ts:318-327):
the guarded iteration over the enumerated sockets. -/
def removePongEvent (w : Watcher) : Watcher :=
  match w.sockets with
  | none => w
  | some l => l.foldl removePongStep w

/-- Embeds `EventEmitter.removeAllListeners` (src/utils.ts:151-155) at the
bookkeeping level of which event names hold handlers: when `name` is a
string whose bucket exists, only that bucket is deleted; in every other
case — a missing bucket included — the `else` branch resets the whole
`_events` map. -/
def removeAllListeners (names : List String) (name : Option String) :
    List String :=
  match name with
  | some n => if n ∈ names then names.erase n else []
  | none => []

/-- Embeds `SpotifyWatcher.removeSocketEvent` (src/utils.ts:289-293): guarded
by `!this.socket.ws`. -/
def removeSocketEvent (w : Watcher) : Watcher :=
  match w.socketWs with
  | none => w
  | some ws => { w with msgListeners := w.msgListeners.erase ws }

/-- Embeds `SpotifyWatcher.unload` (src/utils.ts:379-384): `removeFlux()`,
`removePongEvent()`, `removeAllListeners("pong")`,
`removeSocketEvent()`. -/
def unload (w : Watcher) : Except JsErr (Watcher × List Ev) := do
  let r ← removeFlux w
  let w2 := removePongEvent r.1
  let w3 := { w2 with emitterNames := removeAllListeners w2.emitterNames (some "pong") }
  let w4 := removeSocketEvent w3
  Except.ok (w4, r.2)

/-- The per-socket body of `SpotifyWatcher.addPongEvent`
(src/utils.ts:298-308): when the accountId has no pong handler yet,
record one and attach it to the socket. -/
def addPongStep (acc : Watcher) (p : String × Nat) : Watcher :=
  if p.1 ∈ acc.socketsPongHandlers then acc
  else
    { acc with
      socketsPongHandlers := acc.socketsPongHandlers ++ [p.1]
      pongListeners :=
        if p ∈ acc.pongListeners then acc.pongListeners
        else acc.pongListeners ++ [p] }

/-- Embeds `SpotifyWatcher.addPongEvent` (src/utils.ts:295-316).  `all` is the
result of `await getAllSpotifySockets()`: `none` when no sockets are
enumerable.  With sockets present, a pong handler is attached to every
socket whose accountId has none yet; with none, the readiness fallback
`subscribe("SPOTIFY_PROFILE_UPDATE", REGISTER_PONG_EVENT)` is installed,
guarded by `#pongListenerRegistered`. -/
def addPongEvent (w : Watcher) (all : Option (List (String × Nat))) :
    Except JsErr (Watcher × List Ev) :=
  let w0 := { w with sockets := all }
  match all with
  | some l => Except.ok (l.foldl addPongStep w0, [])
  | none =>
      if !w0.pongListenerRegistered then do
        let s ← dispatcherSub w0.dispatcher w0.dispatchSubs
          "SPOTIFY_PROFILE_UPDATE" HTag.registerPong
        Except.ok ({ w0 with dispatchSubs := s, pongListenerRegistered := true }, [])
      else Except.ok (w0, [])

/-- Iterate `addPongEvent` while the socket enumeration keeps reporting
absent (`getAllSpotifySockets()` yields `undefined` every time). -/
def addPongNoSocketsIter : Nat → Watcher → Except JsErr Watcher
  | 0, w => Except.ok w
  | n + 1, w =>
      match addPongEvent w none with
      | Except.ok r => addPongNoSocketsIter n r.1
      | Except.error e => Except.error e

/-- How many readiness-fallback subscriptions
(`SPOTIFY_PROFILE_UPDATE` → `REGISTER_PONG_EVENT`) the dispatch bus
currently holds. -/
def countPongSubs (w : Watcher) : Nat :=
  (w.dispatchSubs.filter fun p =>
    p.1 == "SPOTIFY_PROFILE_UPDATE" && p.2 == HTag.registerPong).length

/-! Claim theorems. -/

/-- C1: for every watcher whose bound accountId is a non-empty string,
delivering an update event whose payload accountId differs leaves the
whole state (bound accountId and socket binding included) unchanged and
emits no event; the mismatch only produces an error-log entry. -/
theorem C1_mismatched_update_rejected (w : Watcher) (resolved : Option Nat)
    (dataAccountId : String) (h1 : w.accountId ≠ "")
    (h2 : dataAccountId ≠ w.accountId) :
    SPOTIFY_UPDATE resolved w dataAccountId
      = (w, [], ["SpotifyWatcher@SPOTIFY_UPDATE: new account ID differs from registered account ID, change ignored"]) := by
  simp only [SPOTIFY_UPDATE, if_neg h1]
  rw [if_pos (Ne.symm h2)]

/-- Witness for C1 at a concrete bound watcher and mismatching payload. -/
theorem C1_mismatched_update_rejected_witness :
    SPOTIFY_UPDATE (some 5) { initWatcher with accountId := "A" } "B"
      = ({ initWatcher with accountId := "A" }, [],
         ["SpotifyWatcher@SPOTIFY_UPDATE: new account ID differs from registered account ID, change ignored"]) :=
  C1_mismatched_update_rejected { initWatcher with accountId := "A" }
    (some 5) "B" (by decide) (by decide)

/-- C2 (code-bug evidence): registering three distinct handlers for the
same name via `EventEmitter.on` and then emitting invokes only the
third handler — the third `on` call hits the `else` branch of
src/utils.ts:126-130 and overwrites the two-element `Set` with the bare
callback, so the fan-out promised by the claim is lost for three or
more handlers. -/
theorem C2_third_registration_replaces_set (a : Nat) :
    emitRun (fun _ _ => (none : Option Unit))
      (onEvt (onEvt (onEvt ([] : EventMap Nat) "e" 1) "e" 2) "e" 3) "e" a
      = ([(3, a)], none) := rfl

/-- C3 (code-bug evidence): an update event for the bound accountId with
no socket currently bound and a socket resolvable (here socket `7`)
still attaches no message listener and emits `error("websocket")` after
the `update` event — the assignments in `#afterSpotifyUpdate`
(src/utils.ts:281-282) go through the copy returned by the `socket`
getter, so the resolved socket is discarded and the
`this?.socket?.ws` check reads the never-assigned `#socket.ws`. -/
theorem C3_resolvable_socket_still_errors :
    SPOTIFY_UPDATE (some 7) { initWatcher with accountId := "A" } "A"
      = ({ initWatcher with accountId := "A" },
         [Ev.update "A" "A", Ev.error "websocket"], []) := rfl

/-- C4 (counterexample): an inbound realtime message that is undecodable
as JSON makes the watcher's message handler throw — `JSON.parse` at
src/utils.ts:229 is unguarded — refuting the claim that such a message
"throws no error". -/
theorem C4_undecodable_message_throws :
    SPOTIFY_WEBSOCKET_MESSAGE initWatcher none
      = Except.error JsErr.parseErr := rfl

/-- C4 (amended): a message that decodes as JSON but fails the guard
`data?.type && data?.payloads && data.type !== "pong"` — for example
`{"type":"garbage"}` with no payloads — emits no event, mutates no
stored state and throws no error; a message that is undecodable as JSON
propagates the `JSON.parse` exception instead. -/
theorem C4_malformed_message_handling (w : Watcher) (data : Js)
    (hguard : (truthy (jsOptField data "type")
        && truthy (jsOptField data "payloads")
        && !((jsOptField data "type").isStr "pong")) = false) :
    SPOTIFY_WEBSOCKET_MESSAGE w (some data) = Except.ok (w, [])
    ∧ SPOTIFY_WEBSOCKET_MESSAGE w none = Except.error JsErr.parseErr := by
  refine ⟨?_, rfl⟩
  simp only [SPOTIFY_WEBSOCKET_MESSAGE, hguard]
  rfl

/-- Witness for C4 (amended) at the message `{"type":"garbage"}`. -/
theorem C4_malformed_message_handling_witness :
    SPOTIFY_WEBSOCKET_MESSAGE initWatcher
        (some (Js.obj [("type", Js.str "garbage")]))
      = Except.ok (initWatcher, [])
    ∧ SPOTIFY_WEBSOCKET_MESSAGE initWatcher none
      = Except.error JsErr.parseErr :=
  C4_malformed_message_handling initWatcher
    (Js.obj [("type", Js.str "garbage")]) (by decide)

/-- The player-state payload of claim C9:
`progress_ms=1234, duration_ms=9999, repeat_state="track",
shuffle_state=true`. -/
def playerStatePayload : Js :=
  Js.obj [("progress_ms", Js.num 1234), ("duration_ms", Js.num 9999),
    ("repeat_state", Js.str "track"), ("shuffle_state", Js.bool true)]

/-- The well-formed `PLAYER_STATE_CHANGED` wire message carrying
`playerStatePayload`, in the dealer shape
`{type, payloads: [{events: [{type, event: {state}}]}]}`. -/
def playerStateMsg : Js :=
  Js.obj [("type", Js.str "message"),
    ("payloads", Js.arr [Js.obj [("events", Js.arr [Js.obj
      [("type", Js.str "PLAYER_STATE_CHANGED"),
       ("event", Js.obj [("state", playerStatePayload)])]])]])]

/-- C9: a well-formed `PLAYER_STATE_CHANGED` realtime message whose
state payload carries `progress_ms=1234, duration_ms=9999,
repeat_state="track", shuffle_state=true` stores that payload as the new
player state and emits a `message` event whose arguments are
`"PLAYER_STATE_CHANGED"` and exactly that stored payload. -/
theorem C9_player_state_round_trip (w : Watcher) :
    SPOTIFY_WEBSOCKET_MESSAGE w (some playerStateMsg)
      = Except.ok ({ w with stateJs := playerStatePayload },
          [Ev.message (Js.str "PLAYER_STATE_CHANGED") playerStatePayload]) := rfl

/-- C10: on a watcher whose player state and device list have not been
populated by any realtime message (both still `undefined`, as at
construction), the public `state` getter returns the empty object and
the public `devices` getter the empty list; and on every watcher state
whatsoever, neither getter ever returns `undefined`. -/
theorem C10_fresh_getters (w : Watcher) (h1 : w.stateJs = Js.undef)
    (h2 : w.devicesJs = Js.undef) :
    stateGetter w = Js.obj [] ∧ devicesGetter w = Js.arr []
    ∧ (∀ v : Watcher, stateGetter v ≠ Js.undef ∧ devicesGetter v ≠ Js.undef) := by
  refine ⟨by simp [stateGetter, h1, jsNullish], by simp [devicesGetter, h2, jsNullish], ?_⟩
  intro v
  constructor
  · unfold stateGetter jsNullish
    cases v.stateJs <;> simp
  · unfold devicesGetter jsNullish
    cases v.devicesJs <;> simp

/-- Witness for C10 at the freshly constructed watcher. -/
theorem C10_fresh_getters_witness :
    stateGetter initWatcher = Js.obj [] ∧ devicesGetter initWatcher = Js.arr []
    ∧ (∀ v : Watcher, stateGetter v ≠ Js.undef ∧ devicesGetter v ≠ Js.undef) :=
  C10_fresh_getters initWatcher rfl rfl

/-- Iterating a handler list aborts at the first throwing handler: the
handlers before it run, it runs and throws, and nothing after it runs. -/
theorem runList_throw {H A E : Type} (run : H → A → Option E) (l1 l2 : List H)
    (f : H) (e : E) (a : A) (h1 : ∀ g ∈ l1, run g a = none)
    (hf : run f a = some e) :
    runList run (l1 ++ f :: l2) a
      = (l1.map (fun g => (g, a)) ++ [(f, a)], some e) := by
  induction l1 with
  | nil => simp [runList, hf]
  | cons x xs ih =>
    have hx : run x a = none := h1 x (List.mem_cons_self x xs)
    have ih' := ih fun g hg => h1 g (List.mem_cons_of_mem _ hg)
    simp [runList, hx, ih']

/-- C5 (counterexample): with two handlers registered for `"e"` (stored
as the Set `{1, 2}`) and handler `1` throwing, `emit` invokes only
handler `1`; handler `2`, registered later for the same name, is never
invoked in that emission — refuting the claim that every later handler
still runs. -/
theorem C5_throwing_handler_aborts_emit :
    emitRun (fun h _ => if h = 1 then some () else none)
      (onEvt (onEvt ([] : EventMap Nat) "e" 1) "e" 2) "e" 0
      = ([(1, 0)], some ())
    ∧ (2, 0) ∉ (emitRun (fun h _ => if h = 1 then some () else none)
        (onEvt (onEvt ([] : EventMap Nat) "e" 1) "e" 2) "e" 0).1 := by
  decide

/-- C5 (amended): when an earlier handler throws during `emit`, the
handlers registered before it have already run, the exception
propagates out of `emit`, and the handlers registered after it are
__not__ invoked in that emission (there is no per-invocation
isolation). -/
theorem C5_throw_stops_later_handlers {H A E : Type} (run : H → A → Option E)
    (m : EventMap H) (name : String) (a : A) (l1 l2 : List H) (f : H) (e : E)
    (hm : m.lookup name = some (Listeners.set (l1 ++ f :: l2)))
    (h1 : ∀ g ∈ l1, run g a = none) (hf : run f a = some e) :
    emitRun run m name a = (l1.map (fun g => (g, a)) ++ [(f, a)], some e) := by
  simp only [emitRun, hm]
  exact runList_throw run l1 l2 f e a h1 hf

/-- Witness for C5 (amended): handler `1` of the Set `{1, 2}` throws,
so the trace is exactly `[(1, 0)]` and the exception escapes. -/
theorem C5_throw_stops_later_handlers_witness :
    emitRun (fun h _ => if h = 1 then some () else none)
      (onEvt (onEvt ([] : EventMap Nat) "f" 1) "f" 2) "f" 0
      = ([(1, 0)], some ()) := by
  simpa using C5_throw_stops_later_handlers
    (fun h _ => if h = 1 then some () else none)
    (onEvt (onEvt ([] : EventMap Nat) "f" 1) "f" 2) "f" 0 [] [2] 1 ()
    rfl (by simp) rfl

/-- C6 (counterexample): requesting account `"A"` against a store whose
active socket belongs to `"B"` (socket `10`) and whose registry holds
only `"C"` (socket `20`): tiers 1 and 2 miss, and the code returns the
unfiltered active socket `10`, while the claimed resolution — first
registry entry when an accountId was requested — yields `20`. -/
theorem C6_tier3_ignores_requested_account :
    getSpotifySocket (some ⟨some ⟨"B", 10⟩, [("C", 20)]⟩) (some "A") = some 10
    ∧ resolveSocketClaimed (some ⟨some ⟨"B", 10⟩, [("C", 20)]⟩) (some "A") = some 20
    ∧ getSpotifySocket (some ⟨some ⟨"B", 10⟩, [("C", 20)]⟩) (some "A")
        ≠ resolveSocketClaimed (some ⟨some ⟨"B", 10⟩, [("C", 20)]⟩) (some "A") := by
  refine ⟨by decide, by decide, by decide⟩

/-- C6 (amended): the resolver is the three-tier fallback with
short-circuiting where the third tier attempts the host's unfiltered
active-socket lookup __whether or not__ an accountId was requested, and
falls back to the first registry entry only when no active socket
exists (the registry key for an absent accountId being the coerced
string `"undefined"`). -/
theorem C6_resolver_matches_amended_fallback (store? : Option SpotifyStore)
    (acct : Option String) :
    getSpotifySocket store? acct = resolveSocketAmended store? acct := by
  cases store? with
  | none => rfl
  | some store =>
    simp only [getSpotifySocket, resolveSocketAmended, methodsIIandIII]
    cases hact : store.active with
    | none =>
      cases hlk : store.accounts.lookup (jsKey acct) <;>
        simp [Option.orElse]
    | some a =>
      by_cases heq : some a.accountId = acct
      · simp [heq, Option.orElse]
      · cases hlk : store.accounts.lookup (jsKey acct) <;>
          simp [heq, hlk, Option.orElse]

/-- The per-socket pong removal never touches the flux-registration
flag. -/
theorem removePongStep_registered (acc : Watcher) (p : String × Nat) :
    (removePongStep acc p).registered = acc.registered := by
  unfold removePongStep
  by_cases hp : p.1 ∈ acc.socketsPongHandlers <;> simp [hp]

theorem foldl_removePong_registered (l : List (String × Nat)) (acc : Watcher) :
    (l.foldl removePongStep acc).registered = acc.registered := by
  induction l generalizing acc with
  | nil => rfl
  | cons x xs ih => rw [List.foldl_cons, ih, removePongStep_registered]

theorem removePongEvent_registered (w : Watcher) :
    (removePongEvent w).registered = w.registered := by
  unfold removePongEvent
  cases hs : w.sockets with
  | none => rfl
  | some l => exact foldl_removePong_registered l w

theorem removeSocketEvent_registered (w : Watcher) :
    (removeSocketEvent w).registered = w.registered := by
  unfold removeSocketEvent
  cases hs : w.socketWs <;> rfl

/-- `removeFlux` never throws on a well-formed watcher (one whose
dispatcher has been located whenever it is flux-registered), and leaves
it unregistered. -/
theorem removeFlux_ok (w : Watcher)
    (h : w.registered = true → w.dispatcher = true) :
    ∃ w1 e1, removeFlux w = Except.ok (w1, e1) ∧ w1.registered = false := by
  by_cases hr : w.registered = true
  · have hd := h hr
    unfold removeFlux dispatcherUnsub
    rw [hr, hd]
    exact ⟨_, _, rfl, rfl⟩
  · have hr' : w.registered = false := by
      cases hb : w.registered
      · rfl
      · exact absurd hb hr
    refine ⟨w, [], ?_, hr'⟩
    unfold removeFlux
    rw [hr']
    simp

/-- `unload` never throws on a well-formed watcher, and leaves it
unregistered. -/
theorem unload_ok (w : Watcher)
    (h : w.registered = true → w.dispatcher = true) :
    ∃ w1 e1, unload w = Except.ok (w1, e1) ∧ w1.registered = false := by
  obtain ⟨wf, ef, hflux, hreg⟩ := removeFlux_ok w h
  refine ⟨removeSocketEvent { removePongEvent wf with
      emitterNames :=
        removeAllListeners (removePongEvent wf).emitterNames (some "pong") },
    ef, ?_, ?_⟩
  · unfold unload
    rw [hflux]
    rfl
  · rw [removeSocketEvent_registered]
    show (removePongEvent wf).registered = false
    rw [removePongEvent_registered]
    exact hreg

/-- C7: on any watcher whose dispatcher is present whenever it is
flux-registered — which covers both the freshly constructed watcher
(`unload()` before `load()`) and any watcher `load()`/`unload()`
produces — `unload()` never throws, and calling it again on the result
never throws either: every removal step is a guarded no-op when there
is nothing to remove. -/
theorem C7_unload_idempotent_and_safe (w : Watcher)
    (h : w.registered = true → w.dispatcher = true) :
    ∃ w1 e1 w2 e2, unload w = Except.ok (w1, e1)
      ∧ unload w1 = Except.ok (w2, e2) := by
  obtain ⟨w1, e1, h1, hreg⟩ := unload_ok w h
  obtain ⟨w2, e2, h2, _⟩ := unload_ok w1 (fun hr => absurd hr (by simp [hreg]))
  exact ⟨w1, e1, w2, e2, h1, h2⟩

/-- Witness for C7: double `unload()` on the freshly constructed
watcher, before any `load()`, throws nowhere. -/
theorem C7_unload_idempotent_and_safe_witness :
    ∃ w1 e1 w2 e2, unload initWatcher = Except.ok (w1, e1)
      ∧ unload w1 = Except.ok (w2, e2) :=
  C7_unload_idempotent_and_safe initWatcher (fun hr => by simp [initWatcher] at hr)

/-- With the readiness-fallback flag already set, `addPongEvent` under
absent sockets only refreshes the `#sockets` snapshot. -/
theorem addPong_flag_set (w : Watcher) (hw : w.pongListenerRegistered = true) :
    addPongEvent w none = Except.ok ({ w with sockets := none }, []) := by
  simp [addPongEvent, hw]

/-- Iterating `addPongEvent` under absent sockets from a state whose
readiness-fallback flag is set changes no dispatch subscriptions. -/
theorem addPongIter_flag_set (n : Nat) (w : Watcher)
    (hw : w.pongListenerRegistered = true) :
    ∃ w', addPongNoSocketsIter n w = Except.ok w'
      ∧ countPongSubs w' = countPongSubs w
      ∧ w'.pongListenerRegistered = true := by
  induction n generalizing w with
  | zero => exact ⟨w, rfl, rfl, hw⟩
  | succ m ih =>
    obtain ⟨w', h1, h2, h3⟩ := ih { w with sockets := none } hw
    refine ⟨w', ?_, h2, h3⟩
    unfold addPongNoSocketsIter
    rw [addPong_flag_set w hw]
    exact h1

/-- C8: starting from a watcher with its dispatcher located, the
readiness-fallback flag clear and no fallback subscription installed,
any positive number of repeated `addPongEvent` calls while
`getAllSpotifySockets` reports absent installs the
`SPOTIFY_PROFILE_UPDATE` → `REGISTER_PONG_EVENT` readiness-fallback
subscription exactly once, with `#pongListenerRegistered` set as the
guard. -/
theorem C8_readiness_fallback_installed_once (n : Nat) (w : Watcher)
    (hn : 1 ≤ n) (hd : w.dispatcher = true)
    (hf : w.pongListenerRegistered = false) (hc : countPongSubs w = 0) :
    ∃ w', addPongNoSocketsIter n w = Except.ok w'
      ∧ countPongSubs w' = 1 ∧ w'.pongListenerRegistered = true := by
  obtain ⟨m, rfl⟩ : ∃ m, n = m + 1 := ⟨n - 1, by omega⟩
  have hstep : addPongEvent w none = Except.ok
      ({ w with
          sockets := none
          pongListenerRegistered := true
          dispatchSubs := w.dispatchSubs
            ++ [("SPOTIFY_PROFILE_UPDATE", HTag.registerPong)] }, []) := by
    simp [addPongEvent, hf, hd, dispatcherSub]
    rfl
  have hcount : countPongSubs { w with
      sockets := none
      pongListenerRegistered := true
      dispatchSubs := w.dispatchSubs
        ++ [("SPOTIFY_PROFILE_UPDATE", HTag.registerPong)] } = 1 := by
    simp only [countPongSubs] at hc ⊢
    rw [List.filter_append, List.length_append, hc]
    rfl
  obtain ⟨w', h1, h2, h3⟩ := addPongIter_flag_set m { w with
      sockets := none
      pongListenerRegistered := true
      dispatchSubs := w.dispatchSubs
        ++ [("SPOTIFY_PROFILE_UPDATE", HTag.registerPong)] } rfl
  refine ⟨w', ?_, by rw [h2, hcount], h3⟩
  unfold addPongNoSocketsIter
  rw [hstep]
  exact h1

/-- Witness for C8: two consecutive calls with no sockets enumerable,
from a fresh watcher whose dispatcher is located, leave exactly one
fallback subscription. -/
theorem C8_readiness_fallback_installed_once_witness :
    ∃ w', addPongNoSocketsIter 2 { initWatcher with dispatcher := true }
        = Except.ok w'
      ∧ countPongSubs w' = 1 ∧ w'.pongListenerRegistered = true :=
  C8_readiness_fallback_installed_once 2 { initWatcher with dispatcher := true }
    (by omega) rfl rfl rfl

end SpotifyModal
